import Mathlib

/-!
Verification of the load-test-project CRUD backend (Express over MongoDB and
PostgreSQL).  The definitions below are a shallow embedding of the service,
controller and middleware code: databases are lists of records, the ORM calls
(find, findAndCountAll, findByIdAndUpdate, findByIdAndDelete, aggregate) are
modelled by the corresponding pure list operations, and HTTP responses are
plain structures.  Numeric JS values are embedded as Int / Nat / Rat with
exact arithmetic.
-/

namespace LoadTest

/-! ### JS primitives used by the controllers -/

/-- Value of a decimal or hexadecimal digit character, in the given base
(10 or 16), as used by the embedding of the JS global parseInt. -/
def digitValB (base : Nat) (c : Char) : Option Nat :=
  if c.isDigit then
    some (c.toNat - 48)
  else if base = 16 ∧ ('a' ≤ c ∧ c ≤ 'f') then
    some (c.toNat - 97 + 10)
  else if base = 16 ∧ ('A' ≤ c ∧ c ≤ 'F') then
    some (c.toNat - 65 + 10)
  else
    none

/-- Embedding of the JS global parseInt applied to an optional query-string
parameter (a missing parameter is undefined, which parseInt turns into NaN;
NaN is modelled by none).  Leading whitespace is skipped, an optional sign
and an optional 0x / 0X hexadecimal marker are consumed, and the longest
leading run of digits is converted; no digits at all yields NaN. -/
def parseIntJS : Option String → Option Int
  | none => none
  | some str =>
    let cs := str.toList.dropWhile (fun c => c.isWhitespace)
    let signed : Int × List Char :=
      match cs with
      | '-' :: t => (-1, t)
      | '+' :: t => (1, t)
      | t => (1, t)
    let based : Nat × List Char :=
      match signed.2 with
      | '0' :: 'x' :: t => (16, t)
      | '0' :: 'X' :: t => (16, t)
      | t => (10, t)
    let ds := based.2.takeWhile (fun c => (digitValB based.1 c).isSome)
    if ds = [] then
      none
    else
      some (signed.1 *
        (ds.foldl (fun acc c => acc * based.1 + (digitValB based.1 c).getD 0) 0 : Nat))

/-- Embedding of the JS expression `v || d` for an Int-valued v (NaN is
none): NaN and 0 are falsy, every other number is truthy. -/
def jsOrInt : Option Int → Int → Int
  | none, d => d
  | some n, d => if n = 0 then d else n

/-- Embedding of the JS expression `s || d` for a string-or-undefined s:
undefined and the empty string are falsy. -/
def jsOrStr : Option String → String → String
  | none, d => d
  | some s, d => if s = "" then d else s

/-- Controller query parsing: `parseInt(req.query.page as string) || 1`. -/
def parsePage (q : Option String) : Int := jsOrInt (parseIntJS q) 1

/-- Controller query parsing: `parseInt(req.query.limit as string) || 10`. -/
def parseLimit (q : Option String) : Int := jsOrInt (parseIntJS q) 10

/-- Embedding of Math.ceil on an exact rational. -/
def mathCeil (x : ℚ) : Int := ⌈x⌉

/-! ### Case-insensitive substring matching

Embeds the Mongo `$regex` with option i and the PostgreSQL ILIKE pattern
`%q%`, both applied to a query string taken as a literal pattern (exact for
queries without regex or LIKE metacharacters). -/

/-- Lower-cased character list of a string. -/
def lowerStr (s : String) : List Char := s.toList.map Char.toLower

/-- Executable substring test on character lists. -/
def hasInfix (pat : List Char) : List Char → Bool
  | [] => pat.isEmpty
  | c :: t => pat.isPrefixOf (c :: t) || hasInfix pat t

/-- Case-insensitive substring occurrence of pat inside hay. -/
def substrCI (hay pat : String) : Bool := hasInfix (lowerStr pat) (lowerStr hay)

/-! ### Data model

User documents (Mongo) and Product rows (Postgres).  Per spec section 3 the
creation timestamp is storage-managed; it is kept in the record because the
list queries sort by it.  The storage-managed updatedAt timestamp and the
free-form metadata field play no role in any claim and are omitted. -/

structure UserRec where
  id : String
  name : String
  email : String
  age : Option Int
  status : String
  createdAt : Nat
deriving DecidableEq

structure ProductRec where
  id : String
  name : String
  description : Option String
  price : ℚ
  quantity : Int
  category : Option String
  status : String
  createdAt : Nat
deriving DecidableEq

/-! ### Sorting by creation time, descending -/

/-- Descending comparison on a Nat-valued key. -/
def keyGE (key : α → Nat) : α → α → Prop := fun a b => key b ≤ key a

instance (key : α → Nat) : DecidableRel (keyGE key) :=
  fun a b => Nat.decLe (key b) (key a)

instance (key : α → Nat) : IsTotal α (keyGE key) :=
  ⟨fun a b => le_total (key b) (key a)⟩

instance (key : α → Nat) : IsTrans α (keyGE key) :=
  ⟨fun _ _ _ h1 h2 => le_trans h2 h1⟩

/-- Embedding of `.sort({createdAt: -1})` / `order: [['createdAt','DESC']]`:
some reordering of the list that is descending in the key. -/
def sortDescBy (key : α → Nat) (l : List α) : List α :=
  List.insertionSort (keyGE key) l

/-! ### Filters and the paginated list query -/

/-- The filter object built by MongoController.getAllUsers: at most an exact
match on status. -/
structure UserFilter where
  status : Option String
deriving DecidableEq

/-- Mongo `User.find(filter)` match predicate for such a filter. -/
def userMatches (f : UserFilter) (u : UserRec) : Bool :=
  match f.status with
  | none => true
  | some s => decide (u.status = s)

/-- The filter object passed to PostgresService.getAllProducts. -/
structure ProductFilter where
  category : Option String
  status : Option String
deriving DecidableEq

/-- The WHERE clause built inside PostgresService.getAllProducts: a clause is
added only when the corresponding filter field is truthy (so an empty string
adds no clause), and SQL equality on a NULL column never matches. -/
def productWhere (f : ProductFilter) (p : ProductRec) : Bool :=
  (match f.category with
   | none => true
   | some c => if c = "" then true else decide (p.category = some c)) &&
  (match f.status with
   | none => true
   | some s => if s = "" then true else decide (p.status = s))

structure Pagination where
  total : Nat
  page : Int
  limit : Int
  pages : Int
deriving DecidableEq

structure PaginatedUsers where
  users : List UserRec
  pagination : Pagination
deriving DecidableEq

structure PaginatedProducts where
  products : List ProductRec
  pagination : Pagination
deriving DecidableEq

/-- MongoService.getAllUsers: skip = (page - 1) * limit, slice of the
filtered list sorted by createdAt descending, total from countDocuments on
the same filter, pages = Math.ceil(total / limit).  The Int.toNat coercions
on skip and limit are exact in the regime page ≥ 1, limit ≥ 1 in which the
datastore accepts the query. -/
def getAllUsers (db : List UserRec) (page limit : Int) (f : UserFilter) :
    PaginatedUsers :=
  let skip := (page - 1) * limit
  let matched := db.filter (userMatches f)
  let sorted := sortDescBy UserRec.createdAt matched
  { users := (sorted.drop skip.toNat).take limit.toNat
    pagination :=
      { total := matched.length
        page := page
        limit := limit
        pages := mathCeil ((matched.length : ℚ) / (limit : ℚ)) } }

/-- PostgresService.getAllProducts: offset = (page - 1) * limit,
findAndCountAll over the WHERE clause with ORDER BY createdAt DESC,
pages = Math.ceil(count / limit). -/
def getAllProducts (db : List ProductRec) (page limit : Int)
    (f : ProductFilter) : PaginatedProducts :=
  let offset := (page - 1) * limit
  let matched := db.filter (productWhere f)
  let sorted := sortDescBy ProductRec.createdAt matched
  { products := (sorted.drop offset.toNat).take limit.toNat
    pagination :=
      { total := matched.length
        page := page
        limit := limit
        pages := mathCeil ((matched.length : ℚ) / (limit : ℚ)) } }

/-! ### List helpers used by the update and delete embeddings -/

/-- Remove the first element satisfying the predicate (the single document
deleted by findByIdAndDelete / destroy). -/
def removeFirst (pred : α → Bool) : List α → List α
  | [] => []
  | a :: t => if pred a then t else a :: removeFirst pred t

/-- Replace the first element satisfying the predicate (the single document
rewritten by findByIdAndUpdate / instance update). -/
def setFirst (pred : α → Bool) (v : α) : List α → List α
  | [] => []
  | a :: t => if pred a then v :: t else a :: setFirst pred v t

/-! ### Keyword search -/

/-- MongoService.searchUsers: case-insensitive match on name or email,
first 50 results in storage order. -/
def searchUsers (db : List UserRec) (q : String) : List UserRec :=
  (db.filter (fun u => substrCI u.name q || substrCI u.email q)).take 50

/-- PostgresService.searchProducts: ILIKE on name or description (a NULL
description matches nothing), LIMIT 50. -/
def searchProducts (db : List ProductRec) (q : String) : List ProductRec :=
  (db.filter (fun p =>
    substrCI p.name q ||
      (match p.description with
       | none => false
       | some d => substrCI d q))).take 50

/-! ### Get / update / delete services -/

/-- MongoService.getUserById / PostgresService.getProductById. -/
def getUserById (db : List UserRec) (id : String) : Option UserRec :=
  db.find? (fun u => decide (u.id = id))

def getProductById (db : List ProductRec) (id : String) : Option ProductRec :=
  db.find? (fun p => decide (p.id = id))

/-- Partial update payload for a user (UpdateUserDTO): a field set to none
is absent from the request body. -/
structure UserPatch where
  name : Option String
  email : Option String
  age : Option (Option Int)
  status : Option String
deriving DecidableEq

/-- The effect of `$set: updateData` on one document: exactly the supplied
fields are overwritten. -/
def applyUserPatch (p : UserPatch) (u : UserRec) : UserRec :=
  { u with
    name := p.name.getD u.name
    email := p.email.getD u.email
    age := p.age.getD u.age
    status := p.status.getD u.status }

/-- Partial update payload for a product (UpdateProductDTO). -/
structure ProductPatch where
  name : Option String
  description : Option (Option String)
  price : Option ℚ
  quantity : Option Int
  category : Option (Option String)
  status : Option String
deriving DecidableEq

/-- The effect of `product.update(updateData)` on one row. -/
def applyProductPatch (p : ProductPatch) (r : ProductRec) : ProductRec :=
  { r with
    name := p.name.getD r.name
    description := p.description.getD r.description
    price := p.price.getD r.price
    quantity := p.quantity.getD r.quantity
    category := p.category.getD r.category
    status := p.status.getD r.status }

/-- MongoService.updateUser: findByIdAndUpdate with `$set` and new: true.
Returns the updated document (or none) and the new database state. -/
def updateUser (db : List UserRec) (id : String) (p : UserPatch) :
    Option UserRec × List UserRec :=
  match db.find? (fun u => decide (u.id = id)) with
  | none => (none, db)
  | some u =>
    let u2 := applyUserPatch p u
    (some u2, setFirst (fun x => decide (x.id = id)) u2 db)

/-- PostgresService.updateProduct: findByPk then instance update. -/
def updateProduct (db : List ProductRec) (id : String) (p : ProductPatch) :
    Option ProductRec × List ProductRec :=
  match db.find? (fun r => decide (r.id = id)) with
  | none => (none, db)
  | some r =>
    let r2 := applyProductPatch p r
    (some r2, setFirst (fun x => decide (x.id = id)) r2 db)

/-- MongoService.deleteUser: findByIdAndDelete returns the removed document
or null. -/
def deleteUser (db : List UserRec) (id : String) :
    Option UserRec × List UserRec :=
  match db.find? (fun u => decide (u.id = id)) with
  | none => (none, db)
  | some u => (some u, removeFirst (fun x => decide (x.id = id)) db)

/-- PostgresService.deleteProduct: findByPk, destroy, return the row. -/
def deleteProduct (db : List ProductRec) (id : String) :
    Option ProductRec × List ProductRec :=
  match db.find? (fun p => decide (p.id = id)) with
  | none => (none, db)
  | some p => (some p, removeFirst (fun x => decide (x.id = id)) db)

/-- PostgresService.updateStock: adds the (possibly negative) quantity delta
and recomputes status from the sign of the new quantity.  The instance
update runs the Product model validators on the changed fields, and the
quantity column carries a min 0 validator, so an update driving the
quantity negative raises a SequelizeValidationError (embedded as the error
list, with the message of the typed model; the JS model rejects identically
with the Sequelize default text) and persists nothing. -/
def updateStock (db : List ProductRec) (id : String) (qty : Int) :
    Except (List String) (Option ProductRec × List ProductRec) :=
  match db.find? (fun p => decide (p.id = id)) with
  | none => Except.ok (none, db)
  | some p =>
    let newQuantity := p.quantity + qty
    let newStatus := if 0 < newQuantity then "available" else "out_of_stock"
    if newQuantity < 0 then
      Except.error ["Quantity cannot be negative"]
    else
      let p2 := { p with quantity := newQuantity, status := newStatus }
      Except.ok (some p2, setFirst (fun x => decide (x.id = id)) p2 db)

/-! ### Grouped statistics -/

/-- Exact average of a list of rationals; SQL AVG and Mongo avg return NULL
on an empty input. -/
def ratAvg (xs : List ℚ) : Option ℚ :=
  if xs.isEmpty then none else some (xs.sum / (xs.length : ℚ))

/-- One row of the `$group` result of MongoService.getUserStats. -/
structure UserStat where
  key : String
  count : Nat
  avgAge : Option ℚ
deriving DecidableEq

/-- MongoService.getUserStats: group by status; `$avg` skips documents whose
age is null or missing (it does not treat them as zero). -/
def getUserStats (db : List UserRec) : List UserStat :=
  ((db.map (fun u => u.status)).dedup).map (fun s =>
    let grp := db.filter (fun u => decide (u.status = s))
    { key := s
      count := grp.length
      avgAge := ratAvg ((grp.filterMap (fun u => u.age)).map (fun a : ℤ => (a : ℚ))) })

/-- One row of the GROUP BY result of PostgresService.getProductStats. -/
structure ProductStat where
  category : Option String
  count : Nat
  avgPrice : Option ℚ
  totalQuantity : Int
deriving DecidableEq

/-- PostgresService.getProductStats: GROUP BY category (the NULL category
forms its own group) with COUNT(id), AVG(price), SUM(quantity). -/
def getProductStats (db : List ProductRec) : List ProductStat :=
  ((db.map (fun p => p.category)).dedup).map (fun c =>
    let grp := db.filter (fun p => decide (p.category = c))
    { category := c
      count := grp.length
      avgPrice := ratAvg (grp.map (fun p => p.price))
      totalQuantity := (grp.map (fun p => p.quantity)).sum })

/-! ### The error object and the error-handler middleware -/

/-- The error value reaching the Express error middleware.  keyPattern holds
the key list of the Mongo duplicate-key pattern object when present,
validationMessages the per-field messages collected from the Mongoose or
Sequelize errors collection, firstPath the path of the first Sequelize
error item. -/
structure JsError where
  name : String
  message : String
  code : Option Int := none
  statusCode : Option Nat := none
  keyPattern : Option (List String) := none
  validationMessages : List String := []
  firstPath : Option String := none
  stack : Option String := none
deriving DecidableEq

/-- A JSON response as assembled by the controllers and the error handler.
Fields that a given handler does not write stay none (absent from the
serialized body). -/
structure ApiResponse (α : Type) where
  status : Nat
  success : Bool
  data : Option α := none
  error : Option String := none
  message : Option String := none
  errors : Option (List String) := none
  field : Option String := none
  stack : Option String := none
  count : Option Nat := none
  pagination : Option Pagination := none
deriving DecidableEq

/-- The errorHandler middleware: the branch chain on err.name / err.code,
then the fallback `err.statusCode || 500` with `err.message ||
'Internal Server Error'` and the stack attached only in development mode. -/
def errorHandler (isDev : Bool) (e : JsError) : ApiResponse α :=
  if e.name = "ValidationError" then
    { status := 400, success := false, message := some "Validation Error"
      errors := some e.validationMessages }
  else if e.name = "CastError" then
    { status := 400, success := false, message := some "Invalid ID format" }
  else if e.code = some 11000 then
    let fld := match e.keyPattern with
      | none => "field"
      | some ks => ks.headD "undefined"
    { status := 400, success := false, message := some (fld ++ " already exists") }
  else if e.name = "SequelizeValidationError" then
    { status := 400, success := false, message := some "Validation Error"
      errors := some e.validationMessages }
  else if e.name = "SequelizeUniqueConstraintError" then
    { status := 400, success := false, message := some "Duplicate entry"
      field := e.firstPath }
  else if e.name = "JsonWebTokenError" then
    { status := 401, success := false, message := some "Invalid token" }
  else if e.name = "TokenExpiredError" then
    { status := 401, success := false, message := some "Token expired" }
  else
    { status := match e.statusCode with
        | some n => if n = 0 then 500 else n
        | none => 500
      success := false
      message := some (if e.message = "" then "Internal Server Error" else e.message)
      stack := if isDev then e.stack else none }

/-! ### Schema validation of partial updates

Validation messages are those of the Mongoose user schema and the Sequelize
product model; only the fields present in the patch are validated, as update
validators do. -/

/-- Embedding of the test of the Mongoose email format pattern: the string
is entirely non-whitespace and splits as a nonempty part, an at sign, a
nonempty part, a dot, and a nonempty part (the middle and trailing parts
may themselves contain further at signs or dots, as the pattern allows). -/
def emailLike (s : String) : Bool :=
  let cs := s.toList
  cs.all (fun c => !c.isWhitespace) &&
  (List.range cs.length).any (fun i =>
    (List.range cs.length).any (fun j =>
      decide (1 ≤ i) && decide (i + 2 ≤ j) && decide (j + 2 ≤ cs.length) &&
      decide (cs.get? i = some '@') && decide (cs.get? j = some '.')))

/-- Mongoose update-validator messages for the fields set by a user patch:
name required and maxlength, email required and format match (the match
validator is skipped on the empty string, which the required validator
already rejects), age min and max, status enum. -/
def userPatchErrors (p : UserPatch) : List String :=
  (match p.name with
   | none => []
   | some n =>
     (if n = "" then ["Name is required"] else []) ++
     (if 100 < n.length then ["Name cannot exceed 100 characters"] else [])) ++
  (match p.email with
   | none => []
   | some e =>
     if e = "" then ["Email is required"]
     else if emailLike e then [] else ["Please enter a valid email address"]) ++
  (match p.age with
   | none => []
   | some none => []
   | some (some a) =>
     (if a < 0 then ["Age cannot be negative"] else []) ++
     (if 150 < a then ["Age seems unrealistic"] else [])) ++
  (match p.status with
   | none => []
   | some s =>
     if s = "active" ∨ s = "inactive" ∨ s = "pending" then []
     else [s ++ " is not a valid status"])

/-- Sequelize validator messages for the fields set by a product patch. -/
def productPatchErrors (p : ProductPatch) : List String :=
  (match p.name with
   | none => []
   | some n =>
     (if n = "" then ["Name cannot be empty"] else []) ++
     (if n.length < 1 ∨ 255 < n.length then
       ["Name must be between 1 and 255 characters"] else [])) ++
  (match p.price with
   | none => []
   | some pr => if pr < 0 then ["Price cannot be negative"] else []) ++
  (match p.quantity with
   | none => []
   | some q => if q < 0 then ["Quantity cannot be negative"] else [])

/-! ### Controller endpoints (TypeScript controllers) -/

/-- Association-list lookup of a query-string parameter. -/
def qget (q : List (String × String)) (k : String) : Option String :=
  (q.find? (fun kv => decide (kv.fst = k))).map (fun kv => kv.snd)

/-- MongoController.getAllUsers filter construction: only a truthy status
query parameter contributes. -/
def buildUserFilter (q : List (String × String)) : UserFilter :=
  { status :=
      match qget q "status" with
      | none => none
      | some s => if s = "" then none else some s }

/-- PostgresController.getAllProducts filter construction: only truthy
category and status query parameters contribute. -/
def buildProductFilter (q : List (String × String)) : ProductFilter :=
  { category :=
      match qget q "category" with
      | none => none
      | some s => if s = "" then none else some s
    status :=
      match qget q "status" with
      | none => none
      | some s => if s = "" then none else some s }

/-- GET /api/mongo/users: parse page and limit, build the filter, delegate
to the service; the response repeats pages as totalPages. -/
def getAllUsersEndpoint (db : List UserRec) (q : List (String × String)) :
    ApiResponse (List UserRec) :=
  let result := getAllUsers db (parsePage (qget q "page"))
    (parseLimit (qget q "limit")) (buildUserFilter q)
  { status := 200, success := true, data := some result.users
    pagination := some result.pagination }

/-- GET /api/postgres/products. -/
def getAllProductsEndpoint (db : List ProductRec) (q : List (String × String)) :
    ApiResponse (List ProductRec) :=
  let result := getAllProducts db (parsePage (qget q "page"))
    (parseLimit (qget q "limit")) (buildProductFilter q)
  { status := 200, success := true, data := some result.products
    pagination := some result.pagination }

/-- GET /api/mongo/users/search (TypeScript controller): empty or missing
q is rejected with 400 before the service is called. -/
def searchUsersEndpoint (db : List UserRec) (q : Option String) :
    ApiResponse (List UserRec) :=
  let query := jsOrStr q ""
  if query = "" then
    { status := 400, success := false, error := some "Search query is required" }
  else
    { status := 200, success := true, data := some (searchUsers db query) }

/-- GET /api/postgres/products/search (TypeScript controller). -/
def searchProductsEndpoint (db : List ProductRec) (q : Option String) :
    ApiResponse (List ProductRec) :=
  let query := jsOrStr q ""
  if query = "" then
    { status := 400, success := false, error := some "Search query is required" }
  else
    { status := 200, success := true, data := some (searchProducts db query) }

/-- The legacy JS PostgresController.searchProducts (routes bundle): no
empty-query guard at all, the query string is forwarded as is, and an empty
string pattern matches every row. -/
def searchProductsEndpointJS (db : List ProductRec) (q : Option String) :
    ApiResponse (List ProductRec) :=
  let query := jsOrStr q ""
  let products := searchProducts db query
  { status := 200, success := true, data := some products
    count := some products.length }

/-- DELETE /api/mongo/users/:id (TypeScript controller): 404 when the
service returns null, otherwise 200 with the deleted document. -/
def deleteUserEndpoint (db : List UserRec) (id : String) :
    ApiResponse UserRec × List UserRec :=
  match deleteUser db id with
  | (none, db2) =>
    ({ status := 404, success := false, error := some "User not found" }, db2)
  | (some u, db2) =>
    ({ status := 200, success := true, data := some u
       message := some "User deleted successfully" }, db2)

/-- DELETE /api/postgres/products/:id (TypeScript controller). -/
def deleteProductEndpoint (db : List ProductRec) (id : String) :
    ApiResponse ProductRec × List ProductRec :=
  match deleteProduct db id with
  | (none, db2) =>
    ({ status := 404, success := false, error := some "Product not found" }, db2)
  | (some p, db2) =>
    ({ status := 200, success := true, data := some p
       message := some "Product deleted successfully" }, db2)

/-- The legacy JS PostgresController.deleteProduct (routes bundle): the 200
response carries only a success message, without the deleted record. -/
def deleteProductEndpointJS (db : List ProductRec) (id : String) :
    ApiResponse ProductRec × List ProductRec :=
  match deleteProduct db id with
  | (none, db2) =>
    ({ status := 404, success := false, message := some "Product not found" }, db2)
  | (some _, db2) =>
    ({ status := 200, success := true
       message := some "Product deleted successfully" }, db2)

/-- PATCH /api/mongo/users/:id: update validators run on the supplied
fields; a validation failure is thrown and lands in the error handler,
otherwise the service result decides between 404 and 200. -/
def updateUserEndpoint (isDev : Bool) (db : List UserRec) (id : String)
    (p : UserPatch) : ApiResponse UserRec × List UserRec :=
  if userPatchErrors p = [] then
    match updateUser db id p with
    | (none, db2) =>
      ({ status := 404, success := false, error := some "User not found" }, db2)
    | (some u, db2) => ({ status := 200, success := true, data := some u }, db2)
  else
    (errorHandler isDev
      { name := "ValidationError", message := "Validation failed"
        validationMessages := userPatchErrors p }, db)

/-- PATCH /api/postgres/products/:id: findByPk decides 404 first, then the
instance update validates the supplied fields. -/
def updateProductEndpoint (isDev : Bool) (db : List ProductRec) (id : String)
    (p : ProductPatch) : ApiResponse ProductRec × List ProductRec :=
  match getProductById db id with
  | none =>
    ({ status := 404, success := false, error := some "Product not found" }, db)
  | some _ =>
    if productPatchErrors p = [] then
      match updateProduct db id p with
      | (none, db2) =>
        ({ status := 404, success := false, error := some "Product not found" }, db2)
      | (some r, db2) => ({ status := 200, success := true, data := some r }, db2)
    else
      (errorHandler isDev
        { name := "SequelizeValidationError", message := "Validation error"
          validationMessages := productPatchErrors p }, db)

/-! ### The health endpoint -/

structure HealthBody where
  statusText : String
  timestamp : String
  uptime : ℚ
deriving DecidableEq

/-- GET /health: handled before any datastore is consulted; both database
states are parameters only to express that the handler ignores them. -/
def healthEndpoint (_mongoDb : List UserRec) (_pgDb : List ProductRec)
    (now : String) (uptime : ℚ) : Nat × HealthBody :=
  (200, { statusText := "healthy", timestamp := now, uptime := uptime })

/-! ### Concrete sample data used to evaluate the theorems -/

def user1 : UserRec :=
  { id := "u1", name := "Alice", email := "alice@example.com"
    age := some 30, status := "active", createdAt := 3 }

def user2 : UserRec :=
  { id := "u2", name := "Bob", email := "bob@example.com"
    age := none, status := "active", createdAt := 5 }

def user3 : UserRec :=
  { id := "u3", name := "Carol", email := "carol@example.com"
    age := some 40, status := "pending", createdAt := 1 }

def prod1 : ProductRec :=
  { id := "p1", name := "Widget", description := some "A small tool"
    price := 10, quantity := 5, category := some "Tools"
    status := "available", createdAt := 2 }

def prod2 : ProductRec :=
  { id := "p2", name := "Gadget", description := none
    price := 4, quantity := 0, category := none
    status := "out_of_stock", createdAt := 7 }

/-- An unclassified error carrying a sensitive message and no statusCode. -/
def leakErr : JsError := { name := "Error", message := "db password leaked" }

/-- An unclassified error carrying its own statusCode. -/
def teapotErr : JsError :=
  { name := "UpstreamError", message := "", statusCode := some 503 }

/-- A patch setting only the age, to a valid value. -/
def agePatch31 : UserPatch :=
  { name := none, email := none, age := some (some 31), status := none }

/-- A patch setting only the age, to an out-of-range value. -/
def agePatch200 : UserPatch :=
  { name := none, email := none, age := some (some 200), status := none }

/-- A patch setting only the email, to a malformed address. -/
def emailPatchBad : UserPatch :=
  { name := none, email := some "notanemail", age := none, status := none }

/-- The empty product patch. -/
def emptyProductPatch : ProductPatch :=
  { name := none, description := none, price := none, quantity := none,
    category := none, status := none }

/-! ### Helper lemmas -/

/-- The executable substring test agrees with list infix containment. -/
theorem hasInfix_iff (pat : List Char) :
    ∀ hay, hasInfix pat hay = true ↔ pat <:+: hay
  | [] => by simp [hasInfix, List.isEmpty_iff, List.infix_nil]
  | c :: t => by
    simp only [hasInfix, Bool.or_eq_true, List.isPrefixOf_iff_prefix,
      hasInfix_iff pat t, List.infix_cons_iff]

/-- Case-insensitive matching, stated through the infix relation. -/
theorem substrCI_iff (hay pat : String) :
    substrCI hay pat = true ↔ lowerStr pat <:+: lowerStr hay := by
  simp [substrCI, hasInfix_iff]

/-- The exact rational ceiling of a quotient of naturals is the rounded-up
natural division. -/
theorem ceil_div_eq (a n : Nat) (hn : 1 ≤ n) :
    ⌈(a : ℚ) / (n : ℚ)⌉ = ((a + n - 1) / n : ℕ) := by
  obtain ⟨k, rfl⟩ : ∃ k, n = k + 1 := ⟨n - 1, by omega⟩
  have hs : a + (k + 1) - 1 = a + k := by omega
  rw [hs]
  have hpos : (0 : ℚ) < (((k + 1 : ℕ)) : ℚ) := by positivity
  set N : ℕ := (a + k) / (k + 1) with hNdef
  have key : a ≤ N * (k + 1) ∧ N * (k + 1) ≤ a + k := by
    have h := Nat.div_add_mod (a + k) (k + 1)
    have h2 := Nat.mod_lt (a + k) (show 0 < k + 1 by omega)
    rw [Nat.mul_comm] at h
    rw [hNdef]
    generalize hq : (a + k) / (k + 1) * (k + 1) = M at h ⊢
    generalize hr : (a + k) % (k + 1) = r at h h2
    omega
  apply le_antisymm
  · rw [Int.ceil_le, div_le_iff₀ hpos]
    have hle : ((a : ℕ) : ℚ) ≤ ((N * (k + 1) : ℕ) : ℚ) := by exact_mod_cast key.1
    push_cast at hle ⊢
    linarith [hle]
  · have hlt : ((N : ℤ) - 1) < ⌈(a : ℚ) / (((k + 1 : ℕ)) : ℚ)⌉ := by
      rw [Int.lt_ceil, lt_div_iff₀ hpos]
      have hq : ((N * (k + 1) : ℕ) : ℚ) ≤ ((a + k : ℕ) : ℚ) := by exact_mod_cast key.2
      push_cast at hq ⊢
      nlinarith [hq]
    omega

/-- The pages field computed by the services, for a positive Int limit. -/
theorem mathCeil_pages (a : ℕ) (limit : Int) (h : 1 ≤ limit) :
    mathCeil ((a : ℚ) / (limit : ℚ)) = ((a + limit.toNat - 1) / limit.toNat : ℕ) := by
  have h0 : (0 : Int) ≤ limit := by omega
  have hcast : (limit : ℚ) = ((limit.toNat : ℕ) : ℚ) := by
    exact_mod_cast (congrArg (fun z : ℤ => (z : ℚ)) (Int.toNat_of_nonneg h0)).symm
  rw [mathCeil, hcast]
  exact ceil_div_eq a limit.toNat (by omega)

/-- The sort used by the list queries is descending in the key. -/
theorem sortDescBy_pairwise (key : α → Nat) (l : List α) :
    List.Pairwise (fun a b => key b ≤ key a) (sortDescBy key l) :=
  List.sorted_insertionSort (keyGE key) l

/-- The sort is a permutation of its input. -/
theorem sortDescBy_perm (key : α → Nat) (l : List α) :
    (sortDescBy key l).Perm l :=
  List.perm_insertionSort (keyGE key) l

theorem sortDescBy_mem (key : α → Nat) (l : List α) (x : α) :
    x ∈ sortDescBy key l ↔ x ∈ l :=
  (sortDescBy_perm key l).mem_iff

/-- Removing a match from a list without one is the identity. -/
theorem removeFirst_of_forall_not (pred : α → Bool) :
    ∀ l : List α, (∀ x ∈ l, pred x = false) → removeFirst pred l = l
  | [], _ => rfl
  | a :: t, h => by
    have ha : pred a = false := h a (List.mem_cons_self a t)
    simp only [removeFirst, ha, if_neg Bool.false_ne_true]
    rw [removeFirst_of_forall_not pred t (fun x hx => h x (List.mem_cons_of_mem a hx))]

/-- Non-matching elements survive removeFirst. -/
theorem mem_removeFirst_of_not (pred : α → Bool) :
    ∀ l : List α, ∀ x ∈ l, pred x = false → x ∈ removeFirst pred l
  | a :: t, x, hx, hpx => by
    rcases List.mem_cons.mp hx with h | h
    · subst h
      simp [removeFirst, hpx]
    · by_cases hpa : pred a = true
      · simpa [removeFirst, hpa] using h
      · simp only [removeFirst, hpa, if_neg]
        exact List.mem_cons_of_mem a (mem_removeFirst_of_not pred t x h hpx)

/-- Non-matching elements survive setFirst. -/
theorem mem_setFirst_of_not (pred : α → Bool) (v : α) :
    ∀ l : List α, ∀ x ∈ l, pred x = false → x ∈ setFirst pred v l
  | a :: t, x, hx, hpx => by
    rcases List.mem_cons.mp hx with h | h
    · subst h
      simp [setFirst, hpx]
    · by_cases hpa : pred a = true
      · simp [setFirst, hpa]
        exact Or.inr h
      · simp only [setFirst, hpa, if_neg]
        exact List.mem_cons_of_mem a (mem_setFirst_of_not pred v t x h hpx)

/-- The replacement value lands in the list when a match exists. -/
theorem mem_setFirst_self (pred : α → Bool) (v : α) :
    ∀ l : List α, ∀ u, List.find? pred l = some u → v ∈ setFirst pred v l
  | a :: t, u, h => by
    by_cases hpa : pred a = true
    · simp [setFirst, hpa]
    · have hpa' : pred a = false := by simpa using hpa
      rw [List.find?_cons, hpa'] at h
      simp only [setFirst, hpa', if_neg Bool.false_ne_true]
      exact List.mem_cons_of_mem a (mem_setFirst_self pred v t u h)

/-- After removing the unique match from a list whose keys are distinct, no
match remains. -/
theorem find?_removeFirst_nodup (key : α → String) (k : String) :
    ∀ l : List α, (l.map key).Nodup →
      List.find? (fun x => decide (key x = k))
        (removeFirst (fun x => decide (key x = k)) l) = none
  | [], _ => rfl
  | a :: t, h => by
    rw [List.map_cons, List.nodup_cons] at h
    by_cases hp : key a = k
    · have hpa : (fun x => decide (key x = k)) a = true := by simp [hp]
      simp only [removeFirst, hpa, if_pos]
      rw [List.find?_eq_none]
      intro x hx
      simp only [decide_eq_true_eq]
      intro hkx
      exact h.1 (by rw [hp, ← hkx]; exact List.mem_map_of_mem key hx)
    · have hpa : (fun x => decide (key x = k)) a = false := by simp [hp]
      simp only [removeFirst, hpa, if_neg Bool.false_ne_true]
      have hpb : decide (key a = k) = false := by simp [hp]
      rw [List.find?_cons, hpb]
      exact find?_removeFirst_nodup key k t h.2

/-! ### Claim theorems -/

/-- C8: every GET /health request returns HTTP 200 with a body carrying the
status text, the timestamp and the uptime, and the response is independent
of the state of either datastore. -/
theorem health_always_ok (mdb mdb2 : List UserRec) (pdb pdb2 : List ProductRec)
    (now : String) (up : ℚ) :
    (healthEndpoint mdb pdb now up).1 = 200 ∧
    (healthEndpoint mdb pdb now up).2 =
      { statusText := "healthy", timestamp := now, uptime := up } ∧
    healthEndpoint mdb pdb now up = healthEndpoint mdb2 pdb2 now up :=
  ⟨rfl, rfl, rfl⟩

/-- C9 counterexample: a delta driving the quantity negative does not store
old quantity plus delta: the model validator run by the instance update
rejects the call instead, so nothing is stored and no product is returned. -/
theorem updateStock_negative_counterexample :
    updateStock [prod1] "p1" (-6) =
      Except.error ["Quantity cannot be negative"] := by
  rfl

/-- C9 amended: when the id exists and the resulting quantity is
nonnegative, updateStock stores quantity old+delta and sets the status to
available if the new quantity is positive and out_of_stock otherwise, so
the stored status is determined by the sign of the new quantity; a delta
that would make the quantity negative fails the model validator and
changes nothing; a missing id returns null and changes nothing. -/
theorem updateStock_spec (db : List ProductRec) (id : String) (qty : Int) :
    (List.find? (fun p => decide (p.id = id)) db = none →
      updateStock db id qty = Except.ok (none, db)) ∧
    (∀ p, List.find? (fun p => decide (p.id = id)) db = some p →
      0 ≤ p.quantity + qty →
      updateStock db id qty =
        Except.ok
          (some { p with
             quantity := p.quantity + qty
             status := if 0 < p.quantity + qty then "available"
               else "out_of_stock" },
           setFirst (fun x => decide (x.id = id))
             { p with
               quantity := p.quantity + qty
               status := if 0 < p.quantity + qty then "available"
                 else "out_of_stock" } db) ∧
      (∀ x ∈ db, x.id ≠ id →
        x ∈ setFirst (fun x => decide (x.id = id))
          { p with
            quantity := p.quantity + qty
            status := if 0 < p.quantity + qty then "available"
              else "out_of_stock" } db) ∧
      (∀ p2 db2, updateStock db id qty = Except.ok (some p2, db2) →
        p2.status = if 0 < p2.quantity then "available" else "out_of_stock")) ∧
    (∀ p, List.find? (fun p => decide (p.id = id)) db = some p →
      p.quantity + qty < 0 →
      updateStock db id qty = Except.error ["Quantity cannot be negative"]) := by
  refine ⟨?_, ?_, ?_⟩
  · intro h
    simp [updateStock, h]
  · intro p hp hge
    have hlt : ¬(p.quantity + qty < 0) := by omega
    have hEq : updateStock db id qty =
        Except.ok
          (some { p with
             quantity := p.quantity + qty
             status := if 0 < p.quantity + qty then "available"
               else "out_of_stock" },
           setFirst (fun x => decide (x.id = id))
             { p with
               quantity := p.quantity + qty
               status := if 0 < p.quantity + qty then "available"
                 else "out_of_stock" } db) := by
      simp [updateStock, hp, hlt]
    refine ⟨hEq, ?_, ?_⟩
    · intro x hx hne
      exact mem_setFirst_of_not _ _ db x hx (by simp [hne])
    · intro p2 db2 h2
      rw [hEq] at h2
      simp only [Except.ok.injEq, Prod.mk.injEq, Option.some_inj] at h2
      obtain ⟨h3, -⟩ := h2
      subst h3
      by_cases hq : 0 < p.quantity + qty <;> simp [hq]
  · intro p hp hlt
    simp [updateStock, hp, hlt]

/-- C9 witness: the delta -5 on quantity 5 stores quantity 0 and flips the
status to out_of_stock, while the delta -6 is rejected by the validator. -/
theorem updateStock_spec_witness :
    List.find? (fun p => decide (p.id = "p1")) [prod1, prod2] = some prod1 ∧
    (0 : Int) ≤ prod1.quantity + (-5) ∧
    prod1.quantity + (-6) < 0 ∧
    updateStock [prod1, prod2] "p1" (-5) =
      Except.ok
        (some { prod1 with
           quantity := prod1.quantity + (-5)
           status := if 0 < prod1.quantity + (-5) then "available"
             else "out_of_stock" },
         setFirst (fun x => decide (x.id = "p1"))
           { prod1 with
             quantity := prod1.quantity + (-5)
             status := if 0 < prod1.quantity + (-5) then "available"
               else "out_of_stock" } [prod1, prod2]) ∧
    updateStock [prod1, prod2] "p1" (-6) =
      Except.error ["Quantity cannot be negative"] :=
  ⟨by decide, by decide, by decide,
   ((updateStock_spec [prod1, prod2] "p1" (-5)).2.1 prod1
      (by decide) (by decide)).1,
   (updateStock_spec [prod1, prod2] "p1" (-6)).2.2 prod1
      (by decide) (by decide)⟩

/-- C10: list-query page and limit parsing: a parse producing NaN or 0 falls
back to the defaults 1 and 10, while every nonzero parse result, negative
values included, is forwarded unchanged. -/
theorem parse_page_limit_spec (q : Option String) :
    (parseIntJS q = none → parsePage q = 1 ∧ parseLimit q = 10) ∧
    (parseIntJS q = some 0 → parsePage q = 1 ∧ parseLimit q = 10) ∧
    (∀ n : Int, parseIntJS q = some n → n ≠ 0 →
      parsePage q = n ∧ parseLimit q = n) := by
  refine ⟨fun h => ?_, fun h => ?_, fun n h hn => ?_⟩
  · simp [parsePage, parseLimit, jsOrInt, h]
  · simp [parsePage, parseLimit, jsOrInt, h]
  · simp [parsePage, parseLimit, jsOrInt, h, hn]

/-- C10 witness: a non-numeric page, a missing page, and page 0 all produce
page 1; negative values pass through. -/
theorem parse_page_limit_witness :
    (parseIntJS (some "abc") = none ∧ parsePage (some "abc") = 1) ∧
    (parseIntJS none = none ∧ parseLimit none = 10) ∧
    (parseIntJS (some "0") = some 0 ∧ parsePage (some "0") = 1) ∧
    (parseIntJS (some "-5") = some (-5) ∧ parsePage (some "-5") = -5) :=
  ⟨⟨by decide, ((parse_page_limit_spec (some "abc")).1 (by decide)).1⟩,
   ⟨by decide, ((parse_page_limit_spec none).1 (by decide)).2⟩,
   ⟨by decide, ((parse_page_limit_spec (some "0")).2.1 (by decide)).1⟩,
   ⟨by decide, ((parse_page_limit_spec (some "-5")).2.2 (-5) (by decide) (by decide)).1⟩⟩

/-- C3 counterexample: the legacy JS deleteProduct endpoint deletes the
record (status 200) but its response carries no record data, so the delete
operation does not always return the data of the deleted record. -/
theorem delete_returns_data_counterexample :
    ((deleteProductEndpointJS [prod1] "p1").1.status = 200) ∧
    ((deleteProductEndpointJS [prod1] "p1").1.data = none) := by
  constructor <;> rfl

/-- C3 amended: delete removes the record by id; a missing id yields 404
with the state unchanged (hence every retry yields 404 again), and after a
successful delete of a unique id a repeated delete yields 404; the
TypeScript endpoints return the deleted record as data, while the legacy JS
deleteProduct endpoint returns only a success message without the data. -/
theorem delete_spec (db : List UserRec) (pdb : List ProductRec) (id : String) :
    ((∀ u ∈ db, u.id ≠ id) →
      (deleteUserEndpoint db id).1.status = 404 ∧
      (deleteUserEndpoint db id).2 = db) ∧
    ((∀ p ∈ pdb, p.id ≠ id) →
      (deleteProductEndpoint pdb id).1.status = 404 ∧
      (deleteProductEndpoint pdb id).2 = pdb ∧
      (deleteProductEndpointJS pdb id).1.status = 404 ∧
      (deleteProductEndpointJS pdb id).2 = pdb) ∧
    (∀ u, List.find? (fun x => decide (x.id = id)) db = some u →
      (deleteUserEndpoint db id).1.status = 200 ∧
      (deleteUserEndpoint db id).1.data = some u ∧
      (deleteUserEndpoint db id).2 =
        removeFirst (fun x => decide (x.id = id)) db) ∧
    (∀ p, List.find? (fun x => decide (x.id = id)) pdb = some p →
      (deleteProductEndpoint pdb id).1.status = 200 ∧
      (deleteProductEndpoint pdb id).1.data = some p ∧
      (deleteProductEndpointJS pdb id).1.status = 200 ∧
      (deleteProductEndpointJS pdb id).1.data = none) ∧
    ((db.map (fun u => u.id)).Nodup →
      (deleteUserEndpoint (deleteUserEndpoint db id).2 id).1.status = 404) ∧
    ((pdb.map (fun p => p.id)).Nodup →
      (deleteProductEndpoint (deleteProductEndpoint pdb id).2 id).1.status = 404) := by
  have habs : ∀ (l : List UserRec), (∀ u ∈ l, u.id ≠ id) →
      List.find? (fun x => decide (x.id = id)) l = none := by
    intro l h
    rw [List.find?_eq_none]
    intro x hx
    simp [h x hx]
  have habsP : ∀ (l : List ProductRec), (∀ p ∈ l, p.id ≠ id) →
      List.find? (fun x => decide (x.id = id)) l = none := by
    intro l h
    rw [List.find?_eq_none]
    intro x hx
    simp [h x hx]
  refine ⟨?_, ?_, ?_, ?_, ?_, ?_⟩
  · intro h
    have hf := habs db h
    constructor <;> simp [deleteUserEndpoint, deleteUser, hf]
  · intro h
    have hf := habsP pdb h
    refine ⟨?_, ?_, ?_, ?_⟩ <;>
      simp [deleteProductEndpoint, deleteProductEndpointJS, deleteProduct, hf]
  · intro u hu
    refine ⟨?_, ?_, ?_⟩ <;> simp [deleteUserEndpoint, deleteUser, hu]
  · intro p hp
    refine ⟨?_, ?_, ?_, ?_⟩ <;>
      simp [deleteProductEndpoint, deleteProductEndpointJS, deleteProduct, hp]
  · intro hnd
    rcases hfind : List.find? (fun x => decide (x.id = id)) db with _ | u
    · simp [deleteUserEndpoint, deleteUser, hfind]
    · have hrem := find?_removeFirst_nodup (fun u : UserRec => u.id) id db hnd
      simp [deleteUserEndpoint, deleteUser, hfind, hrem]
  · intro hnd
    rcases hfind : List.find? (fun x => decide (x.id = id)) pdb with _ | p
    · simp [deleteProductEndpoint, deleteProduct, hfind]
    · have hrem := find?_removeFirst_nodup (fun p : ProductRec => p.id) id pdb hnd
      simp [deleteProductEndpoint, deleteProduct, hfind, hrem]

/-- C3 witness: deleting u1 from a concrete store returns the deleted
document, and deleting it again yields 404. -/
theorem delete_spec_witness :
    List.find? (fun x => decide (x.id = "u1")) [user1, user2] = some user1 ∧
    ([user1, user2].map (fun u => u.id)).Nodup ∧
    ((deleteUserEndpoint [user1, user2] "u1").1.status = 200 ∧
      (deleteUserEndpoint [user1, user2] "u1").1.data = some user1 ∧
      (deleteUserEndpoint [user1, user2] "u1").2 =
        removeFirst (fun x => decide (x.id = "u1")) [user1, user2]) ∧
    (deleteUserEndpoint (deleteUserEndpoint [user1, user2] "u1").2 "u1").1.status = 404 :=
  ⟨by decide, by decide,
   (delete_spec [user1, user2] [] "u1").2.2.1 user1 (by decide),
   (delete_spec [user1, user2] [] "u1").2.2.2.2.1 (by decide)⟩

/-- C2 counterexample: the legacy JS searchProducts endpoint does not reject
an empty (missing) query: it answers 200 and treats the empty pattern as
match-all, returning the stored records. -/
theorem search_empty_counterexample :
    (searchProductsEndpointJS [prod1] none).status = 200 ∧
    (searchProductsEndpointJS [prod1] none).status ≠ 400 ∧
    (searchProductsEndpointJS [prod1] none).data = some [prod1] := by
  refine ⟨rfl, by decide, by decide⟩

/-- C2 amended: the TypeScript search endpoints reject an empty or missing
query with 400 and, for a non-empty query, return at most 50 records, each
matching the query case-insensitively in name or email (users) or name or
description (products), with 200 and an empty list when nothing matches; the
legacy JS searchProducts endpoint instead returns 200 for the empty query,
treating it as match-all. -/
theorem search_spec (udb : List UserRec) (pdb : List ProductRec)
    (q : Option String) :
    ((q = none ∨ q = some "") →
      (searchUsersEndpoint udb q).status = 400 ∧
      (searchUsersEndpoint udb q).data = none ∧
      (searchProductsEndpoint pdb q).status = 400 ∧
      (searchProductsEndpoint pdb q).data = none ∧
      (searchProductsEndpointJS pdb q).status = 200) ∧
    (∀ s, q = some s → s ≠ "" →
      (searchUsersEndpoint udb q).status = 200 ∧
      (searchUsersEndpoint udb q).data = some (searchUsers udb s) ∧
      (searchProductsEndpoint pdb q).status = 200 ∧
      (searchProductsEndpoint pdb q).data = some (searchProducts pdb s) ∧
      (searchUsers udb s).length ≤ 50 ∧
      (searchProducts pdb s).length ≤ 50 ∧
      (∀ u ∈ searchUsers udb s,
        lowerStr s <:+: lowerStr u.name ∨ lowerStr s <:+: lowerStr u.email) ∧
      (∀ p ∈ searchProducts pdb s,
        lowerStr s <:+: lowerStr p.name ∨
          ∃ d, p.description = some d ∧ lowerStr s <:+: lowerStr d) ∧
      ((∀ u ∈ udb, ¬(lowerStr s <:+: lowerStr u.name) ∧
          ¬(lowerStr s <:+: lowerStr u.email)) →
        searchUsers udb s = []) ∧
      ((∀ p ∈ pdb, ¬(lowerStr s <:+: lowerStr p.name) ∧
          ∀ d, p.description = some d → ¬(lowerStr s <:+: lowerStr d)) →
        searchProducts pdb s = [])) := by
  constructor
  · rintro (rfl | rfl) <;>
      exact ⟨rfl, rfl, rfl, rfl, rfl⟩
  · rintro s rfl hs
    refine ⟨?_, ?_, ?_, ?_, ?_, ?_, ?_, ?_, ?_, ?_⟩
    · simp [searchUsersEndpoint, jsOrStr, hs]
    · simp [searchUsersEndpoint, jsOrStr, hs]
    · simp [searchProductsEndpoint, jsOrStr, hs]
    · simp [searchProductsEndpoint, jsOrStr, hs]
    · exact List.length_take_le 50 _
    · exact List.length_take_le 50 _
    · intro u hu
      have hu2 := (List.take_sublist 50 _).subset hu
      have := (List.mem_filter.mp hu2).2
      rcases Bool.or_eq_true _ _ |>.mp this with h | h
      · exact Or.inl ((substrCI_iff u.name s).mp h)
      · exact Or.inr ((substrCI_iff u.email s).mp h)
    · intro p hp
      have hp2 := (List.take_sublist 50 _).subset hp
      have hm := (List.mem_filter.mp hp2).2
      rcases Bool.or_eq_true _ _ |>.mp hm with h | h
      · exact Or.inl ((substrCI_iff p.name s).mp h)
      · rcases hd : p.description with _ | d
        · rw [hd] at h
          simp at h
        · rw [hd] at h
          exact Or.inr ⟨d, rfl, (substrCI_iff d s).mp h⟩
    · intro hnone
      have : udb.filter
          (fun u => substrCI u.name s || substrCI u.email s) = [] := by
        rw [List.filter_eq_nil_iff]
        intro u hu
        rcases hnone u hu with ⟨h1, h2⟩
        simp only [Bool.or_eq_true, not_or]
        exact ⟨fun hc => h1 ((substrCI_iff u.name s).mp hc),
               fun hc => h2 ((substrCI_iff u.email s).mp hc)⟩
      simp [searchUsers, this]
    · intro hnone
      have : pdb.filter
          (fun p => substrCI p.name s ||
            (match p.description with
             | none => false
             | some d => substrCI d s)) = [] := by
        rw [List.filter_eq_nil_iff]
        intro p hp
        rcases hnone p hp with ⟨h1, h2⟩
        simp only [Bool.or_eq_true, not_or]
        refine ⟨fun hc => h1 ((substrCI_iff p.name s).mp hc), ?_⟩
        rcases hd : p.description with _ | d
        · simp
        · simp only
          intro hc
          exact h2 d hd ((substrCI_iff d s).mp hc)
      simp [searchProducts, this]

/-- C2 witness: a concrete non-empty query matching one user returns 200
with that user, and the empty query is rejected by the TypeScript endpoint
with 400. -/
theorem search_spec_witness :
    ((searchUsersEndpoint [user1, user2] (some "")).status = 400 ∧
      (searchUsersEndpoint [user1, user2] (some "")).data = none) ∧
    ((searchUsersEndpoint [user1, user2] (some "ali")).status = 200 ∧
      (searchUsersEndpoint [user1, user2] (some "ali")).data =
        some (searchUsers [user1, user2] "ali")) ∧
    searchUsers [user1, user2] "ali" = [user1] :=
  ⟨⟨((search_spec [user1, user2] [] (some "")).1 (Or.inr rfl)).1,
    ((search_spec [user1, user2] [] (some "")).1 (Or.inr rfl)).2.1⟩,
   ⟨((search_spec [user1, user2] [] (some "ali")).2 "ali" rfl (by decide)).1,
    ((search_spec [user1, user2] [] (some "ali")).2 "ali" rfl (by decide)).2.1⟩,
   by decide⟩

/-- C6 counterexample: an unclassified error is not reduced to a generic
message: the response repeats the error message verbatim even outside
development mode, and an unclassified error carrying its own statusCode is
not mapped to 500. -/
theorem error_handler_counterexample :
    ((errorHandler false leakErr : ApiResponse Unit).status = 500 ∧
      (errorHandler false leakErr : ApiResponse Unit).message =
        some "db password leaked" ∧
      some "db password leaked" ≠ some "Internal Server Error") ∧
    ((errorHandler false teapotErr : ApiResponse Unit).status = 503 ∧
      (503 : ℕ) ≠ 500) := by
  refine ⟨⟨rfl, rfl, by decide⟩, ⟨rfl, by decide⟩⟩

/-- C6 amended: validation errors yield 400 with the per-field messages;
a uniqueness violation yields 400 naming the offending field (Mongo code
11000 through the keyPattern keys, Sequelize through the first error path);
an unclassified error yields its own statusCode, or 500 when it has none,
with the error message repeated (the generic text is used only when the
error message is empty) and the stack attached only in development mode. -/
theorem error_handler_spec (isDev : Bool) (e : JsError) :
    (e.name = "ValidationError" →
      (errorHandler isDev e : ApiResponse Unit).status = 400 ∧
      (errorHandler isDev e : ApiResponse Unit).message = some "Validation Error" ∧
      (errorHandler isDev e : ApiResponse Unit).errors = some e.validationMessages) ∧
    (e.name = "SequelizeValidationError" → e.code ≠ some 11000 →
      (errorHandler isDev e : ApiResponse Unit).status = 400 ∧
      (errorHandler isDev e : ApiResponse Unit).message = some "Validation Error" ∧
      (errorHandler isDev e : ApiResponse Unit).errors = some e.validationMessages) ∧
    (e.name ≠ "ValidationError" → e.name ≠ "CastError" → e.code = some 11000 →
      (errorHandler isDev e : ApiResponse Unit).status = 400 ∧
      (errorHandler isDev e : ApiResponse Unit).message =
        some ((match e.keyPattern with
               | none => "field"
               | some ks => ks.headD "undefined") ++ " already exists")) ∧
    (e.name = "SequelizeUniqueConstraintError" → e.code ≠ some 11000 →
      (errorHandler isDev e : ApiResponse Unit).status = 400 ∧
      (errorHandler isDev e : ApiResponse Unit).message = some "Duplicate entry" ∧
      (errorHandler isDev e : ApiResponse Unit).field = e.firstPath) ∧
    (e.name ∉ (["ValidationError", "CastError", "SequelizeValidationError",
        "SequelizeUniqueConstraintError", "JsonWebTokenError",
        "TokenExpiredError"] : List String) → e.code ≠ some 11000 →
      (e.statusCode = none →
        (errorHandler isDev e : ApiResponse Unit).status = 500) ∧
      (∀ n, e.statusCode = some n → n ≠ 0 →
        (errorHandler isDev e : ApiResponse Unit).status = n) ∧
      (e.message = "" →
        (errorHandler isDev e : ApiResponse Unit).message =
          some "Internal Server Error") ∧
      (e.message ≠ "" →
        (errorHandler isDev e : ApiResponse Unit).message = some e.message) ∧
      (isDev = false → (errorHandler isDev e : ApiResponse Unit).stack = none) ∧
      (isDev = true → (errorHandler isDev e : ApiResponse Unit).stack = e.stack)) := by
  refine ⟨?_, ?_, ?_, ?_, ?_⟩
  · intro h
    refine ⟨?_, ?_, ?_⟩ <;> simp [errorHandler, h]
  · intro h hc
    refine ⟨?_, ?_, ?_⟩ <;> simp [errorHandler, h, hc]
  · intro h1 h2 hc
    refine ⟨?_, ?_⟩ <;> simp [errorHandler, h1, h2, hc]
  · intro h hc
    refine ⟨?_, ?_, ?_⟩ <;> simp [errorHandler, h, hc]
  · intro h hc
    simp only [List.mem_cons, List.mem_singleton, not_or] at h
    obtain ⟨n1, n2, n3, n4, n5, n6, -⟩ := h
    refine ⟨?_, ?_, ?_, ?_, ?_, ?_⟩
    · intro hsc
      simp [errorHandler, n1, n2, n3, n4, n5, n6, hc, hsc]
    · intro n hsc hn
      simp [errorHandler, n1, n2, n3, n4, n5, n6, hc, hsc, hn]
    · intro hm
      simp [errorHandler, n1, n2, n3, n4, n5, n6, hc, hm]
    · intro hm
      simp [errorHandler, n1, n2, n3, n4, n5, n6, hc, hm]
    · intro hd
      simp [errorHandler, n1, n2, n3, n4, n5, n6, hc, hd]
    · intro hd
      simp [errorHandler, n1, n2, n3, n4, n5, n6, hc, hd]

/-- C6 witness: a Mongoose validation error with two field messages maps to
400 carrying exactly those messages; a Sequelize unique violation maps to
400 naming the email field; an unclassified empty-message error maps to 500
with the generic text. -/
theorem error_handler_spec_witness :
    ((errorHandler true
        { name := "ValidationError", message := "Validation failed"
          validationMessages :=
            ["Name is required", "Age cannot be negative"] } :
        ApiResponse Unit).status = 400 ∧
      (errorHandler true
        { name := "ValidationError", message := "Validation failed"
          validationMessages :=
            ["Name is required", "Age cannot be negative"] } :
        ApiResponse Unit).message = some "Validation Error" ∧
      (errorHandler true
        { name := "ValidationError", message := "Validation failed"
          validationMessages :=
            ["Name is required", "Age cannot be negative"] } :
        ApiResponse Unit).errors =
          some ["Name is required", "Age cannot be negative"]) ∧
    ((errorHandler false
        { name := "SequelizeUniqueConstraintError", message := "dup"
          firstPath := some "email" } : ApiResponse Unit).status = 400 ∧
      (errorHandler false
        { name := "SequelizeUniqueConstraintError", message := "dup"
          firstPath := some "email" } : ApiResponse Unit).field = some "email") ∧
    ((errorHandler false { name := "Error", message := "" } :
        ApiResponse Unit).status = 500 ∧
      (errorHandler false { name := "Error", message := "" } :
        ApiResponse Unit).message = some "Internal Server Error") :=
  ⟨error_handler_spec true
      { name := "ValidationError", message := "Validation failed"
        validationMessages :=
          ["Name is required", "Age cannot be negative"] } |>.1 rfl,
   ⟨(error_handler_spec false
      { name := "SequelizeUniqueConstraintError", message := "dup"
        firstPath := some "email" } |>.2.2.2.1 rfl (by decide)).1,
    (error_handler_spec false
      { name := "SequelizeUniqueConstraintError", message := "dup"
        firstPath := some "email" } |>.2.2.2.1 rfl (by decide)).2.2⟩,
   ⟨(error_handler_spec false { name := "Error", message := "" }
      |>.2.2.2.2 (by decide) (by decide)).1 rfl,
    (error_handler_spec false { name := "Error", message := "" }
      |>.2.2.2.2 (by decide) (by decide)).2.2.1 rfl⟩⟩

/-- A query parameter under a different key does not change a lookup. -/
theorem qget_cons_ne (k v key : String) (q : List (String × String))
    (h : k ≠ key) : qget ((k, v) :: q) key = qget q key := by
  simp [qget, List.find?_cons, h]

/-- C7: the applied list filter is a conjunction of equality predicates on
the whitelisted fields only (status for users; category and status for
products); a query parameter under any other key changes nothing, and the
list request is never rejected. -/
theorem filter_whitelist_spec (udb : List UserRec) (pdb : List ProductRec)
    (q : List (String × String)) (k v : String) :
    (k ≠ "status" → k ≠ "page" → k ≠ "limit" →
      getAllUsersEndpoint udb ((k, v) :: q) = getAllUsersEndpoint udb q) ∧
    (k ≠ "category" → k ≠ "status" → k ≠ "page" → k ≠ "limit" →
      getAllProductsEndpoint pdb ((k, v) :: q) = getAllProductsEndpoint pdb q) ∧
    (getAllUsersEndpoint udb q).status = 200 ∧
    (getAllProductsEndpoint pdb q).status = 200 ∧
    (∀ (f : UserFilter) (u : UserRec),
      userMatches f u = true ↔ (∀ s, f.status = some s → u.status = s)) ∧
    (∀ (f : ProductFilter) (p : ProductRec),
      productWhere f p = true ↔
        ((∀ c, f.category = some c → c ≠ "" → p.category = some c) ∧
         (∀ s, f.status = some s → s ≠ "" → p.status = s))) := by
  refine ⟨?_, ?_, rfl, rfl, ?_, ?_⟩
  · intro h1 h2 h3
    rw [getAllUsersEndpoint, getAllUsersEndpoint, buildUserFilter, buildUserFilter,
      qget_cons_ne k v "page" q h2, qget_cons_ne k v "limit" q h3,
      qget_cons_ne k v "status" q h1]
  · intro h1 h2 h3 h4
    rw [getAllProductsEndpoint, getAllProductsEndpoint, buildProductFilter,
      buildProductFilter, qget_cons_ne k v "page" q h3,
      qget_cons_ne k v "limit" q h4, qget_cons_ne k v "category" q h1,
      qget_cons_ne k v "status" q h2]
  · intro f u
    rcases f with ⟨_ | s⟩ <;> simp [userMatches]
  · intro f p
    rcases f with ⟨fc, fs⟩
    rcases fc with _ | c <;> rcases fs with _ | s
    · simp [productWhere]
    · by_cases hs : s = "" <;> simp [productWhere, hs]
    · by_cases hc : c = "" <;> simp [productWhere, hc]
    · by_cases hc : c = "" <;> by_cases hs : s = "" <;>
        simp [productWhere, hc, hs]

/-- C7 witness: an unknown query key foo neither narrows the user list nor
causes a rejection on a concrete store. -/
theorem filter_whitelist_spec_witness :
    getAllUsersEndpoint [user1, user2]
        (("foo", "bar") :: [("status", "active")]) =
      getAllUsersEndpoint [user1, user2] [("status", "active")] ∧
    (getAllUsersEndpoint [user1, user2] [("status", "active")]).status = 200 :=
  ⟨(filter_whitelist_spec [user1, user2] [] [("status", "active")]
      "foo" "bar").1 (by decide) (by decide) (by decide),
   (filter_whitelist_spec [user1, user2] [] [("status", "active")]
      "foo" "bar").2.2.1⟩

/-- C4: a partial update overwrites exactly the fields present in the input
and leaves every other client-writable field (and the identity and creation
timestamp) at its pre-update value, returning the full updated record; a
missing id yields 404, a validation failure yields 400, so the two failure
modes are distinguishable. -/
theorem update_spec (udb : List UserRec) (pdb : List ProductRec) (id : String)
    (up : UserPatch) (pp : ProductPatch) (isDev : Bool) :
    (∀ u : UserRec,
      (up.name = none → (applyUserPatch up u).name = u.name) ∧
      (up.email = none → (applyUserPatch up u).email = u.email) ∧
      (up.age = none → (applyUserPatch up u).age = u.age) ∧
      (up.status = none → (applyUserPatch up u).status = u.status) ∧
      (∀ s, up.name = some s → (applyUserPatch up u).name = s) ∧
      (∀ s, up.email = some s → (applyUserPatch up u).email = s) ∧
      (∀ a, up.age = some a → (applyUserPatch up u).age = a) ∧
      (∀ s, up.status = some s → (applyUserPatch up u).status = s) ∧
      (applyUserPatch up u).id = u.id ∧
      (applyUserPatch up u).createdAt = u.createdAt) ∧
    (∀ r : ProductRec,
      (pp.name = none → (applyProductPatch pp r).name = r.name) ∧
      (pp.description = none →
        (applyProductPatch pp r).description = r.description) ∧
      (pp.price = none → (applyProductPatch pp r).price = r.price) ∧
      (pp.quantity = none → (applyProductPatch pp r).quantity = r.quantity) ∧
      (pp.category = none → (applyProductPatch pp r).category = r.category) ∧
      (pp.status = none → (applyProductPatch pp r).status = r.status) ∧
      (applyProductPatch pp r).id = r.id ∧
      (applyProductPatch pp r).createdAt = r.createdAt) ∧
    (List.find? (fun x => decide (x.id = id)) udb = none →
      updateUser udb id up = (none, udb)) ∧
    (∀ u, List.find? (fun x => decide (x.id = id)) udb = some u →
      (updateUser udb id up).1 = some (applyUserPatch up u) ∧
      (∀ x ∈ udb, x.id ≠ id → x ∈ (updateUser udb id up).2)) ∧
    (userPatchErrors up = [] →
      List.find? (fun x => decide (x.id = id)) udb = none →
      (updateUserEndpoint isDev udb id up).1.status = 404) ∧
    (userPatchErrors up = [] →
      ∀ u, List.find? (fun x => decide (x.id = id)) udb = some u →
        (updateUserEndpoint isDev udb id up).1.status = 200 ∧
        (updateUserEndpoint isDev udb id up).1.data =
          some (applyUserPatch up u)) ∧
    (userPatchErrors up ≠ [] →
      (updateUserEndpoint isDev udb id up).1.status = 400) ∧
    (List.find? (fun x => decide (x.id = id)) pdb = none →
      (updateProductEndpoint isDev pdb id pp).1.status = 404) ∧
    (productPatchErrors pp = [] →
      ∀ p, List.find? (fun x => decide (x.id = id)) pdb = some p →
        (updateProductEndpoint isDev pdb id pp).1.status = 200 ∧
        (updateProductEndpoint isDev pdb id pp).1.data =
          some (applyProductPatch pp p)) ∧
    (productPatchErrors pp ≠ [] →
      ∀ p, List.find? (fun x => decide (x.id = id)) pdb = some p →
        (updateProductEndpoint isDev pdb id pp).1.status = 400) := by
  refine ⟨?_, ?_, ?_, ?_, ?_, ?_, ?_, ?_, ?_, ?_⟩
  · intro u
    refine ⟨?_, ?_, ?_, ?_, ?_, ?_, ?_, ?_, rfl, rfl⟩ <;>
      first
        | (intro h; simp [applyUserPatch, h])
        | (intro s h; simp [applyUserPatch, h])
  · intro r
    refine ⟨?_, ?_, ?_, ?_, ?_, ?_, rfl, rfl⟩ <;>
      (intro h; simp [applyProductPatch, h])
  · intro h
    simp [updateUser, h]
  · intro u hu
    refine ⟨by simp [updateUser, hu], ?_⟩
    intro x hx hne
    simp only [updateUser, hu]
    exact mem_setFirst_of_not _ _ udb x hx (by simp [hne])
  · intro herr hfind
    simp [updateUserEndpoint, herr, updateUser, hfind]
  · intro herr u hu
    constructor <;> simp [updateUserEndpoint, herr, updateUser, hu]
  · intro herr
    simp only [updateUserEndpoint, if_neg herr]
    simp [errorHandler]
  · intro hfind
    simp [updateProductEndpoint, getProductById, hfind]
  · intro herr p hp
    constructor <;>
      simp [updateProductEndpoint, getProductById, herr, updateProduct, hp]
  · intro herr p hp
    simp only [updateProductEndpoint, getProductById, hp, if_neg herr]
    simp [errorHandler]

/-- C4 witness: patching only the age of u1 keeps name, email, status, id
and createdAt, and the endpoint answers 200 with the updated record; an
out-of-range age patch yields 400; a missing id yields 404. -/
theorem update_spec_witness :
    userPatchErrors agePatch31 = [] ∧
    List.find? (fun x => decide (x.id = "u1")) [user1] = some user1 ∧
    ((updateUserEndpoint false [user1] "u1" agePatch31).1.status = 200 ∧
      (updateUserEndpoint false [user1] "u1" agePatch31).1.data =
        some (applyUserPatch agePatch31 user1)) ∧
    userPatchErrors agePatch200 ≠ [] ∧
    (updateUserEndpoint false [user1] "u1" agePatch200).1.status = 400 ∧
    userPatchErrors emailPatchBad = ["Please enter a valid email address"] ∧
    (updateUserEndpoint false [user1] "u1" emailPatchBad).1.status = 400 ∧
    (updateUserEndpoint false [] "zz" agePatch31).1.status = 404 :=
  ⟨by decide, by decide,
   (update_spec [user1] [] "u1" agePatch31 emptyProductPatch
      false).2.2.2.2.2.1 (by decide) user1 (by decide),
   by decide,
   (update_spec [user1] [] "u1" agePatch200 emptyProductPatch
      false).2.2.2.2.2.2.1 (by decide),
   by decide,
   (update_spec [user1] [] "u1" emailPatchBad emptyProductPatch
      false).2.2.2.2.2.2.1 (by decide),
   (update_spec [] [] "zz" agePatch31 emptyProductPatch
      false).2.2.2.2.1 (by decide) (by decide)⟩

/-- toNat distributes over a product of nonnegative integers. -/
theorem toNat_mul_nonneg (a b : Int) (ha : 0 ≤ a) (hb : 0 ≤ b) :
    (a * b).toNat = a.toNat * b.toNat := by
  lift a to ℕ using ha
  lift b to ℕ using hb
  rw [← Nat.cast_mul, Int.toNat_natCast, Int.toNat_natCast, Int.toNat_natCast]

/-- C1: for page ≥ 1 and limit ≥ 1, the paginated list returns the
offset slice of the filtered records sorted by creation time descending,
with offset (page - 1) * limit, at most limit records, the total count of
matching records, and pages = ceil(total / limit). -/
theorem paginated_list_spec (udb : List UserRec) (pdb : List ProductRec)
    (page limit : Int) (uf : UserFilter) (pf : ProductFilter)
    (hp : 1 ≤ page) (hl : 1 ≤ limit) :
    ((getAllUsers udb page limit uf).users =
        ((sortDescBy UserRec.createdAt (udb.filter (userMatches uf))).drop
          ((page - 1) * limit).toNat).take limit.toNat ∧
      ((page - 1) * limit).toNat = (page.toNat - 1) * limit.toNat ∧
      (getAllUsers udb page limit uf).users.length ≤ limit.toNat ∧
      List.Pairwise (fun a b => b.createdAt ≤ a.createdAt)
        (getAllUsers udb page limit uf).users ∧
      (∀ u ∈ (getAllUsers udb page limit uf).users, userMatches uf u = true) ∧
      (getAllUsers udb page limit uf).pagination.total =
        (udb.filter (userMatches uf)).length ∧
      (getAllUsers udb page limit uf).pagination.pages =
        (((udb.filter (userMatches uf)).length + limit.toNat - 1) /
          limit.toNat : ℕ)) ∧
    ((getAllProducts pdb page limit pf).products =
        ((sortDescBy ProductRec.createdAt (pdb.filter (productWhere pf))).drop
          ((page - 1) * limit).toNat).take limit.toNat ∧
      (getAllProducts pdb page limit pf).products.length ≤ limit.toNat ∧
      List.Pairwise (fun a b => b.createdAt ≤ a.createdAt)
        (getAllProducts pdb page limit pf).products ∧
      (∀ p ∈ (getAllProducts pdb page limit pf).products,
        productWhere pf p = true) ∧
      (getAllProducts pdb page limit pf).pagination.total =
        (pdb.filter (productWhere pf)).length ∧
      (getAllProducts pdb page limit pf).pagination.pages =
        (((pdb.filter (productWhere pf)).length + limit.toNat - 1) /
          limit.toNat : ℕ)) := by
  have hoff : ((page - 1) * limit).toNat = (page.toNat - 1) * limit.toNat := by
    rw [toNat_mul_nonneg (page - 1) limit (by omega) (by omega)]
    have e1 : (page - 1).toNat = page.toNat - 1 := by omega
    rw [e1]
  constructor
  · refine ⟨rfl, hoff, List.length_take_le _ _, ?_, ?_, rfl, ?_⟩
    · exact List.Pairwise.sublist
        ((List.take_sublist _ _).trans (List.drop_sublist _ _))
        (sortDescBy_pairwise UserRec.createdAt (udb.filter (userMatches uf)))
    · intro u hu
      have h1 := (List.take_sublist _ _).subset hu
      have h2 := (List.drop_sublist _ _).subset h1
      have h3 := (sortDescBy_mem UserRec.createdAt
        (udb.filter (userMatches uf)) u).mp h2
      exact (List.mem_filter.mp h3).2
    · exact mathCeil_pages (udb.filter (userMatches uf)).length limit hl
  · refine ⟨rfl, List.length_take_le _ _, ?_, ?_, rfl, ?_⟩
    · exact List.Pairwise.sublist
        ((List.take_sublist _ _).trans (List.drop_sublist _ _))
        (sortDescBy_pairwise ProductRec.createdAt (pdb.filter (productWhere pf)))
    · intro p hp2
      have h1 := (List.take_sublist _ _).subset hp2
      have h2 := (List.drop_sublist _ _).subset h1
      have h3 := (sortDescBy_mem ProductRec.createdAt
        (pdb.filter (productWhere pf)) p).mp h2
      exact (List.mem_filter.mp h3).2
    · exact mathCeil_pages (pdb.filter (productWhere pf)).length limit hl

/-- C1 witness: a concrete store of three users filtered by status active,
page 1 and limit 2, returns at most 2 records with pages = 1. -/
theorem paginated_list_spec_witness :
    (1 : Int) ≤ 1 ∧ (1 : Int) ≤ 2 ∧
    ((getAllUsers [user1, user2, user3] 1 2 { status := some "active" }).users =
        ((sortDescBy UserRec.createdAt
          ([user1, user2, user3].filter
            (userMatches { status := some "active" }))).drop
          (((1 : Int) - 1) * 2).toNat).take (2 : Int).toNat ∧
      (((1 : Int) - 1) * 2).toNat = ((1 : Int).toNat - 1) * (2 : Int).toNat ∧
      (getAllUsers [user1, user2, user3] 1 2
        { status := some "active" }).users.length ≤ (2 : Int).toNat ∧
      List.Pairwise (fun a b => b.createdAt ≤ a.createdAt)
        (getAllUsers [user1, user2, user3] 1 2
          { status := some "active" }).users ∧
      (∀ u ∈ (getAllUsers [user1, user2, user3] 1 2
          { status := some "active" }).users,
        userMatches { status := some "active" } u = true) ∧
      (getAllUsers [user1, user2, user3] 1 2
        { status := some "active" }).pagination.total =
        ([user1, user2, user3].filter
          (userMatches { status := some "active" })).length ∧
      (getAllUsers [user1, user2, user3] 1 2
        { status := some "active" }).pagination.pages =
        ((([user1, user2, user3].filter
            (userMatches { status := some "active" })).length +
          (2 : Int).toNat - 1) / (2 : Int).toNat : ℕ)) :=
  ⟨by decide, by decide,
   (paginated_list_spec [user1, user2, user3] [] 1 2
      { status := some "active" } { category := none, status := none }
      (by decide) (by decide)).1⟩

/-- C5: the grouped statistics return one entry per distinct value of the
grouping field present in the store (groups with zero records are omitted,
keys are not repeated), with the record count of the group and the aggregate
measures computed over that group only; null numeric fields are excluded
from averages rather than counted as zero. -/
theorem stats_spec (udb : List UserRec) (pdb : List ProductRec) :
    (∀ st ∈ getUserStats udb,
      (∃ u ∈ udb, u.status = st.key) ∧
      0 < st.count ∧
      st.count = (udb.filter (fun u => decide (u.status = st.key))).length ∧
      st.avgAge = ratAvg
        (((udb.filter (fun u => decide (u.status = st.key))).filterMap
          (fun u => u.age)).map (fun a : ℤ => (a : ℚ))) ∧
      ((∀ u ∈ udb.filter (fun u => decide (u.status = st.key)), u.age = none) →
        st.avgAge = none) ∧
      (∀ as, (udb.filter (fun u => decide (u.status = st.key))).filterMap
          (fun u => u.age) = as → as ≠ [] →
        st.avgAge =
          some ((as.map (fun a : ℤ => (a : ℚ))).sum / (as.length : ℚ)))) ∧
    (∀ s, (∃ u ∈ udb, u.status = s) → ∃ st ∈ getUserStats udb, st.key = s) ∧
    ((getUserStats udb).map (fun st => st.key)).Nodup ∧
    (∀ st ∈ getProductStats pdb,
      (∃ p ∈ pdb, p.category = st.category) ∧
      0 < st.count ∧
      st.count =
        (pdb.filter (fun p => decide (p.category = st.category))).length ∧
      st.avgPrice = ratAvg
        ((pdb.filter (fun p => decide (p.category = st.category))).map
          (fun p => p.price)) ∧
      st.totalQuantity =
        ((pdb.filter (fun p => decide (p.category = st.category))).map
          (fun p => p.quantity)).sum) ∧
    (∀ c, (∃ p ∈ pdb, p.category = c) →
      ∃ st ∈ getProductStats pdb, st.category = c) ∧
    ((getProductStats pdb).map (fun st => st.category)).Nodup := by
  refine ⟨?_, ?_, ?_, ?_, ?_, ?_⟩
  · intro st hst
    rw [getUserStats, List.mem_map] at hst
    obtain ⟨s, hs, rfl⟩ := hst
    obtain ⟨u, hu, hus⟩ := List.mem_map.mp (List.mem_dedup.mp hs)
    refine ⟨⟨u, hu, hus⟩, ?_, rfl, rfl, ?_, ?_⟩
    · exact List.length_pos_of_mem
        (List.mem_filter.mpr ⟨hu, by simp [hus]⟩)
    · intro hall
      have hall2 : ∀ v ∈ udb.filter (fun u => decide (u.status = s)),
          v.age = none := hall
      have hnil : (udb.filter (fun u => decide (u.status = s))).filterMap
          (fun u => u.age) = [] :=
        List.filterMap_eq_nil_iff.mpr hall2
      show ratAvg (((udb.filter (fun u => decide (u.status = s))).filterMap
        (fun u => u.age)).map (fun a : ℤ => (a : ℚ))) = none
      rw [hnil]
      rfl
    · intro as has hne
      have has2 : (udb.filter (fun u => decide (u.status = s))).filterMap
          (fun u => u.age) = as := has
      show ratAvg (((udb.filter (fun u => decide (u.status = s))).filterMap
          (fun u => u.age)).map (fun a : ℤ => (a : ℚ))) =
        some ((as.map (fun a : ℤ => (a : ℚ))).sum / (as.length : ℚ))
      rw [has2]
      rcases as with _ | ⟨a, t⟩
      · exact absurd rfl hne
      · simp [ratAvg]
  · intro s hex
    obtain ⟨u, hu, hus⟩ := hex
    refine ⟨_, List.mem_map.mpr ⟨s, List.mem_dedup.mpr
      (List.mem_map.mpr ⟨u, hu, hus⟩), rfl⟩, rfl⟩
  · have : (getUserStats udb).map (fun st => st.key) =
        (udb.map (fun u => u.status)).dedup := by
      rw [getUserStats, List.map_map]
      exact List.map_id _
    rw [this]
    exact List.nodup_dedup _
  · intro st hst
    rw [getProductStats, List.mem_map] at hst
    obtain ⟨c, hc, rfl⟩ := hst
    obtain ⟨p, hp, hpc⟩ := List.mem_map.mp (List.mem_dedup.mp hc)
    refine ⟨⟨p, hp, hpc⟩, ?_, rfl, rfl, rfl⟩
    exact List.length_pos_of_mem
      (List.mem_filter.mpr ⟨hp, by simp [hpc]⟩)
  · intro c hex
    obtain ⟨p, hp, hpc⟩ := hex
    refine ⟨_, List.mem_map.mpr ⟨c, List.mem_dedup.mpr
      (List.mem_map.mpr ⟨p, hp, hpc⟩), rfl⟩, rfl⟩
  · have : (getProductStats pdb).map (fun st => st.category) =
        (pdb.map (fun p => p.category)).dedup := by
      rw [getProductStats, List.map_map]
      exact List.map_id _
    rw [this]
    exact List.nodup_dedup _

/-- C5 witness: on a concrete store the active group counts both users but
averages the age over the single non-null value. -/
theorem stats_spec_witness :
    (getUserStats [user1, user2, user3]).map (fun st => (st.key, st.count)) =
      [("active", 2), ("pending", 1)] ∧
    getUserStats [user2] =
      [{ key := "active", count := 1, avgAge := none }] ∧
    (∀ st ∈ getUserStats [user1, user2, user3],
      (∃ u ∈ [user1, user2, user3], u.status = st.key) ∧
      0 < st.count ∧
      st.count = ([user1, user2, user3].filter
        (fun u => decide (u.status = st.key))).length ∧
      st.avgAge = ratAvg
        ((([user1, user2, user3].filter
          (fun u => decide (u.status = st.key))).filterMap
          (fun u => u.age)).map (fun a : ℤ => (a : ℚ))) ∧
      ((∀ u ∈ [user1, user2, user3].filter
          (fun u => decide (u.status = st.key)), u.age = none) →
        st.avgAge = none) ∧
      (∀ as, ([user1, user2, user3].filter
          (fun u => decide (u.status = st.key))).filterMap
          (fun u => u.age) = as → as ≠ [] →
        st.avgAge =
          some ((as.map (fun a : ℤ => (a : ℚ))).sum / (as.length : ℚ)))) :=
  ⟨by decide, by decide, (stats_spec [user1, user2, user3] []).1⟩

end LoadTest
